import Mathlib

/-!
Shallow embedding of the task-monitoring client (Gohanado/task-monitoring).

Sources embedded here:
* `src/chrome-extension/js/background.js` — the StatusMonitor: `checkServerStatus`,
  `updateBadge`, `showNotification`, the 30s recurring probe.
* `src/static/app.js` — the dashboard SyncCoordinator: `updateDashboard` merging
  push (WebSocket) and pull (2s polling) deliveries into the rendered snapshot.
* the popup script embedded in `src/install.sh` — the SessionManager and the
  popup dashboard: `hashPassword`, `LLMMonitor.handleLogin`, `handleRegister`,
  `validateCentralToken`, `refreshCentralToken`, `logout`, `stopRefresh`,
  `refresh` and its render functions.

JavaScript-specific semantics (truthiness of possibly-absent fields, the
`undefined > 50` comparison evaluating to false, `x || 0` defaulting) are made
explicit through `Option` types and the helpers below.  Platform primitives
(`fetch`, `crypto.subtle.digest`, `chrome.storage`, timers) are external
collaborators: network outcomes are passed in as explicit event/outcome values,
the SHA-256 primitive is an abstract function parameter `sha`, and
`chrome.storage.local` is an explicit `storage` field threaded through state.
-/

/-- JavaScript truthiness of a possibly-absent string field:
`undefined` and `""` are falsy, every other string is truthy. -/
def jsTruthyStr : Option String → Bool
  | some s => s != ""
  | none => false

/-- JavaScript `x > t` where `x` is a possibly-absent JSON number:
`undefined > t` evaluates to `false`; a present number compares numerically. -/
def jsGtNum : Option Nat → Nat → Bool
  | some q, t => decide (t < q)
  | none, _ => false

/-! ## StatusMonitor — `src/chrome-extension/js/background.js` -/

/-- JSON body of `GET /api/stats` as read by `checkServerStatus`; the two
fields it touches may each be absent (`undefined`). -/
structure Stats where
  queue_count : Option Nat
  processing_count : Option Nat
deriving DecidableEq

/-- Outcome of one probe `fetch(host + "/api/stats", {signal: AbortSignal.timeout(5000)})`:
a parsed JSON body on success, or the three failure modes the spec names, all of
which land in the same `catch` block of `checkServerStatus`. -/
inductive ProbeResult where
  | success (stats : Stats)
  | httpError
  | netError
  | timeout
deriving DecidableEq

/-- Argument passed to `updateBadge`: `null`, the string `'!'`, or a number. -/
inductive BadgeValue where
  | null
  | alert
  | count (n : Nat)
deriving DecidableEq

/-- `updateBadge` from background.js: the badge text written via
`chrome.action.setBadgeText`. `null` and `0` clear the badge, `'!'` shows the
alert, a positive number shows its decimal string. -/
def updateBadge : BadgeValue → String
  | .null => ""
  | .alert => "!"
  | .count 0 => ""
  | .count n => toString n

/-- The extension's stored configuration record as used by background.js
(`monitorConfig`); only the `host` field is read by `checkServerStatus`. -/
structure BgConfig where
  host : Option String
deriving DecidableEq

/-- Service-worker state of background.js: the `monitorConfig` global, whether
the 30-second `setInterval` handle (`checkInterval`) is installed, the current
badge text, and how many `chrome.notifications.create` calls have been made. -/
structure BgState where
  monitorConfig : Option BgConfig
  checkInterval : Bool
  badgeText : String
  notificationCount : Nat
deriving DecidableEq

/-- `checkServerStatus` from background.js, as a function of the probe outcome.
With no (truthy) configured host it clears the badge; on success it shows
`(stats.queue_count || 0) + (stats.processing_count || 0)` and fires a
notification whenever `stats.queue_count > 50` (JS comparison, so false when
the field is absent); on any failure the `catch` block shows `'!'`.
It never touches `checkInterval`. -/
def checkServerStatus (s : BgState) (probe : ProbeResult) : BgState :=
  match s.monitorConfig with
  | none => { s with badgeText := updateBadge .null }
  | some cfg =>
    if jsTruthyStr cfg.host = false then
      { s with badgeText := updateBadge .null }
    else
      match probe with
      | .success stats =>
        let activeCount := stats.queue_count.getD 0 + stats.processing_count.getD 0
        let s1 := { s with badgeText := updateBadge (.count activeCount) }
        if jsGtNum stats.queue_count 50 then
          { s1 with notificationCount := s1.notificationCount + 1 }
        else s1
      | _ => { s with badgeText := updateBadge .alert }

/-- A sequence of probe deliveries processed in order by the recurring
30-second schedule. -/
def runProbes (s : BgState) : List ProbeResult → BgState
  | [] => s
  | p :: ps => runProbes (checkServerStatus s p) ps

/-- Whether background.js is in the configured state `monitorConfig && monitorConfig.host`
(JS truthiness) under which `checkServerStatus` actually probes. -/
def bgConfigured (s : BgState) : Bool :=
  match s.monitorConfig with
  | some cfg => jsTruthyStr cfg.host
  | none => false

/-! ### Decimal-representation facts used for badge distinctness -/

theorem digitChar_lt_ten_isDigit : ∀ k : Nat, k < 10 → (Nat.digitChar k).isDigit = true := by
  decide

theorem toDigitsCore_ten_all_digits (fuel : Nat) :
    ∀ (n : Nat) (ds : List Char), (∀ c ∈ ds, c.isDigit = true) →
      ∀ c ∈ Nat.toDigitsCore 10 fuel n ds, c.isDigit = true := by
  induction fuel with
  | zero =>
    intro n ds h c hc
    exact h c hc
  | succ fuel ih =>
    intro n ds h c hc
    simp only [Nat.toDigitsCore] at hc
    have hd : ∀ x ∈ Nat.digitChar (n % 10) :: ds, x.isDigit = true := by
      intro x hx
      rcases List.mem_cons.mp hx with hx | hx
      · subst hx
        exact digitChar_lt_ten_isDigit _ (Nat.mod_lt _ (by decide))
      · exact h x hx
    by_cases hz : n / 10 = 0
    · rw [if_pos hz] at hc
      exact hd c hc
    · rw [if_neg hz] at hc
      exact ih (n / 10) _ hd c hc

theorem natRepr_ne_bang (n : Nat) : Nat.repr n ≠ "!" := by
  intro h
  have hlist : Nat.toDigits 10 n = ['!'] := by
    have hdata := congrArg String.data h
    simpa [Nat.repr, Nat.toDigits, List.asString] using hdata
  have hmem : '!' ∈ Nat.toDigitsCore 10 (n + 1) n [] := by
    rw [show Nat.toDigitsCore 10 (n + 1) n [] = Nat.toDigits 10 n from rfl, hlist]
    exact List.mem_singleton.mpr rfl
  have := toDigitsCore_ten_all_digits (n + 1) n [] (by intro c hc; cases hc) '!' hmem
  simp [Char.isDigit] at this

theorem updateBadge_count_ne_alert (n : Nat) : updateBadge (.count n) ≠ "!" := by
  cases n with
  | zero => simp [updateBadge]
  | succ m =>
    simp only [updateBadge]
    exact natRepr_ne_bang (m + 1)

/-! ### StatusMonitor step lemmas -/

theorem checkServerStatus_monitorConfig (s : BgState) (p : ProbeResult) :
    (checkServerStatus s p).monitorConfig = s.monitorConfig := by
  obtain ⟨mc, ci, bt, nc⟩ := s
  cases mc with
  | none => rfl
  | some cfg =>
    simp only [checkServerStatus]
    split
    · rfl
    · cases p
      case success stats => dsimp only; split <;> rfl
      all_goals rfl

theorem checkServerStatus_checkInterval (s : BgState) (p : ProbeResult) :
    (checkServerStatus s p).checkInterval = s.checkInterval := by
  obtain ⟨mc, ci, bt, nc⟩ := s
  cases mc with
  | none => rfl
  | some cfg =>
    simp only [checkServerStatus]
    split
    · rfl
    · cases p
      case success stats => dsimp only; split <;> rfl
      all_goals rfl

theorem checkServerStatus_bgConfigured (s : BgState) (p : ProbeResult) :
    bgConfigured (checkServerStatus s p) = bgConfigured s := by
  unfold bgConfigured
  rw [checkServerStatus_monitorConfig]

theorem checkServerStatus_success_notif (s : BgState) (st : Stats)
    (hc : bgConfigured s = true) :
    (checkServerStatus s (.success st)).notificationCount =
      s.notificationCount + (if jsGtNum st.queue_count 50 then 1 else 0) := by
  obtain ⟨mc, ci, bt, nc⟩ := s
  cases mc with
  | none => simp [bgConfigured] at hc
  | some cfg =>
    simp only [bgConfigured] at hc
    simp only [checkServerStatus]
    rw [if_neg (by simp [hc])]
    split <;> simp_all

/-- A concrete configured background-worker state used by witnesses and
counterexamples: a truthy host, interval installed, empty badge, no
notifications yet. -/
def bgS0 : BgState :=
  { monitorConfig := some { host := some "http://10.0.0.5:8080" }
    checkInterval := true
    badgeText := ""
    notificationCount := 0 }

/-- The C2 scenario deliveries: successful probes whose `stats.queue_count`
is 51, then 52, then 49. -/
def probes515249 : List ProbeResult :=
  [ .success { queue_count := some 51, processing_count := some 0 }
  , .success { queue_count := some 52, processing_count := some 0 }
  , .success { queue_count := some 49, processing_count := some 0 } ]

/-- C2: counterexample. The claim says the delivery sequence 51, 52, 49
produces exactly one notification; `checkServerStatus` has no suppression
state, so it notifies at 51 and again at 52 — two notifications, not one. -/
theorem c2_counterexample :
    (runProbes bgS0 probes515249).notificationCount = 2 ∧
    bgS0.notificationCount = 0 ∧ (2 : Nat) ≠ 1 := by decide

/-- C2 (amended): the queue-threshold notification is level-triggered, not
edge-triggered: every successful probe with `queue_count > 50` emits one
notification, so a run of consecutive probes above the threshold notifies on
every probe of the run; in particular 51, 52, 49 yields two notifications. -/
theorem c2_notification_level_triggered (s : BgState) (hc : bgConfigured s = true)
    (deliveries : List Stats) :
    (runProbes s (deliveries.map ProbeResult.success)).notificationCount =
      s.notificationCount +
        (deliveries.filter (fun st => jsGtNum st.queue_count 50)).length := by
  induction deliveries generalizing s with
  | nil => simp [runProbes]
  | cons st rest ih =>
    simp only [List.map, runProbes, List.filter]
    have hc2 : bgConfigured (checkServerStatus s (.success st)) = true := by
      rw [checkServerStatus_bgConfigured]; exact hc
    rw [ih _ hc2, checkServerStatus_success_notif s st hc]
    cases h : jsGtNum st.queue_count 50 <;> (simp [h]; try omega)

/-- Witness for the amended C2 theorem at the scenario deliveries 51, 52, 49. -/
theorem c2_notification_level_triggered_witness :
    bgConfigured bgS0 = true ∧
    (runProbes bgS0 (([⟨some 51, some 0⟩, ⟨some 52, some 0⟩, ⟨some 49, some 0⟩] :
        List Stats).map ProbeResult.success)).notificationCount =
      bgS0.notificationCount +
        (([⟨some 51, some 0⟩, ⟨some 52, some 0⟩, ⟨some 49, some 0⟩] :
        List Stats).filter (fun st => jsGtNum st.queue_count 50)).length :=
  ⟨by decide, c2_notification_level_triggered bgS0 (by decide) _⟩

/-- C8: on a failing probe (non-success response, network error or timeout)
`checkServerStatus` reports the alert badge `'!'`, which differs from the empty
badge and from every numeric badge, and it leaves the recurring 30-second
interval untouched, so the next scheduled probe still runs. -/
theorem c8_probe_failure_alert (s : BgState) (probe : ProbeResult)
    (hc : bgConfigured s = true)
    (hf : probe = .httpError ∨ probe = .netError ∨ probe = .timeout) :
    (checkServerStatus s probe).badgeText = "!" ∧
    (checkServerStatus s probe).checkInterval = s.checkInterval ∧
    ("!" : String) ≠ "" ∧
    ∀ n : Nat, updateBadge (.count n) ≠ "!" := by
  refine ⟨?_, checkServerStatus_checkInterval s probe, by decide, updateBadge_count_ne_alert⟩
  obtain ⟨mc, ci, bt, nc⟩ := s
  cases mc with
  | none => simp [bgConfigured] at hc
  | some cfg =>
    simp only [bgConfigured] at hc
    simp only [checkServerStatus]
    rw [if_neg (by simp [hc])]
    rcases hf with rfl | rfl | rfl <;> rfl

/-- Witness for C8 at a concrete network-error probe. -/
theorem c8_probe_failure_alert_witness :
    bgConfigured bgS0 = true ∧
    (ProbeResult.netError = .httpError ∨ ProbeResult.netError = .netError ∨
      ProbeResult.netError = .timeout) ∧
    ((checkServerStatus bgS0 .netError).badgeText = "!" ∧
     (checkServerStatus bgS0 .netError).checkInterval = bgS0.checkInterval ∧
     ("!" : String) ≠ "" ∧
     ∀ n : Nat, updateBadge (.count n) ≠ "!") :=
  ⟨by decide, Or.inr (Or.inl rfl),
    c8_probe_failure_alert bgS0 .netError (by decide) (Or.inr (Or.inl rfl))⟩

/-- C9: counterexample. The claim says that whenever `queue_count` or
`processing_count` is absent no threshold notification is emitted; but a stats
body with `queue_count = 60` present and `processing_count` absent does emit
one (`60 > 50` holds regardless of the other field). -/
theorem c9_counterexample :
    (Stats.mk (some 60) none).processing_count = none ∧
    (checkServerStatus bgS0 (.success (Stats.mk (some 60) none))).notificationCount =
      bgS0.notificationCount + 1 := by decide

/-- C9 (amended): an absent `queue_count` / `processing_count` is treated as 0
for the badge (`x || 0`), so the badge shows the sum of the present fields and
is empty when both are missing; and no threshold notification is emitted when
`queue_count` itself is absent (`undefined > 50` is false).  A present
`queue_count` above 50 still notifies even if `processing_count` is absent. -/
theorem c9_missing_fields_default_zero (s : BgState) (st : Stats)
    (hc : bgConfigured s = true)
    (_habs : st.queue_count = none ∨ st.processing_count = none) :
    (checkServerStatus s (.success st)).badgeText =
      updateBadge (.count (st.queue_count.getD 0 + st.processing_count.getD 0)) ∧
    (st.queue_count = none → st.processing_count = none →
      (checkServerStatus s (.success st)).badgeText = "") ∧
    (st.queue_count = none →
      (checkServerStatus s (.success st)).notificationCount = s.notificationCount) := by
  obtain ⟨mc, ci, bt, nc⟩ := s
  cases mc with
  | none => simp [bgConfigured] at hc
  | some cfg =>
    simp only [bgConfigured] at hc
    simp only [checkServerStatus]
    rw [if_neg (by simp [hc])]
    refine ⟨?_, ?_, ?_⟩
    · split <;> rfl
    · intro h1 h2
      rw [h1, h2]
      split <;> rfl
    · intro h1
      rw [h1]
      simp [jsGtNum]

/-- Witness for C9 (amended) at a stats body with `queue_count` absent. -/
theorem c9_missing_fields_default_zero_witness :
    bgConfigured bgS0 = true ∧
    ((Stats.mk none (some 3)).queue_count = none ∨
      (Stats.mk none (some 3)).processing_count = none) ∧
    ((checkServerStatus bgS0 (.success (Stats.mk none (some 3)))).badgeText =
      updateBadge (.count ((Stats.mk none (some 3)).queue_count.getD 0 +
        (Stats.mk none (some 3)).processing_count.getD 0)) ∧
     ((Stats.mk none (some 3)).queue_count = none →
        (Stats.mk none (some 3)).processing_count = none →
        (checkServerStatus bgS0 (.success (Stats.mk none (some 3)))).badgeText = "") ∧
     ((Stats.mk none (some 3)).queue_count = none →
        (checkServerStatus bgS0 (.success (Stats.mk none (some 3)))).notificationCount =
          bgS0.notificationCount)) :=
  ⟨by decide, Or.inl rfl,
    c9_missing_fields_default_zero bgS0 (Stats.mk none (some 3)) (by decide) (Or.inl rfl)⟩

/-! ## SyncCoordinator — `src/static/app.js` (`LLMMonitor.updateDashboard`) -/

/-- A request record as rendered by the dashboard (`renderRequestCard` reads
`id`, `service`, `model`, `prompt`, `status`, `created_at`). -/
structure RequestRecord where
  id : String
  service : String
  model : String
  prompt : String
  status : String
  created_at : String
deriving DecidableEq

/-- The `stats` block of a push/pull delivery; `updateDashboard` reads all
five counters directly when the block is present. -/
structure StatsFull where
  queue_count : Nat
  processing_count : Nat
  completed_count : Nat
  failed_count : Nat
  killed_count : Nat
deriving DecidableEq

/-- One delivery to `updateDashboard`, from either the WebSocket push channel
(`ws.onmessage`) or the 2-second pull channel (`loadData`); each of the four
parts may be absent from the JSON message. -/
structure UpdateMsg where
  queue : Option (List RequestRecord)
  processing : Option (List RequestRecord)
  history : Option (List RequestRecord)
  stats : Option StatsFull
deriving DecidableEq

/-- The visible snapshot rendered by static/app.js: the four stat tiles
(`stat-queue`, `stat-processing`, `stat-completed`, `stat-failed`, the last
being `failed_count + killed_count`) and the three rendered columns. -/
structure Dashboard where
  statQueue : Nat
  statProcessing : Nat
  statCompleted : Nat
  statFailed : Nat
  queueList : List RequestRecord
  processingList : List RequestRecord
  historyList : List RequestRecord
deriving DecidableEq

/-- `LLMMonitor.updateDashboard` from static/app.js: `if (data.stats)` guards
the stat tiles, while the three columns are re-rendered unconditionally from
`data.queue || []`, `data.processing || []`, `data.history || []`. -/
def updateDashboard (d : Dashboard) (data : UpdateMsg) : Dashboard :=
  let d1 :=
    match data.stats with
    | some s =>
      { d with statQueue := s.queue_count
               statProcessing := s.processing_count
               statCompleted := s.completed_count
               statFailed := s.failed_count + s.killed_count }
    | none => d
  { d1 with queueList := data.queue.getD []
            processingList := data.processing.getD []
            historyList := data.history.getD [] }

/-- A sequence of deliveries applied in arrival order. -/
def applyDeliveries (d : Dashboard) (ms : List UpdateMsg) : Dashboard :=
  ms.foldl updateDashboard d

/-- Folding step extracting the latest carried `stats` block. -/
def statsStep (acc : Option StatsFull) (m : UpdateMsg) : Option StatsFull :=
  match m.stats with
  | some s => some s
  | none => acc

/-- The `stats` block of the latest delivery in `ms` that carried one. -/
def lastCarriedStats (ms : List UpdateMsg) : Option StatsFull :=
  ms.foldl statsStep none

/-- The four stat tiles of a rendered dashboard. -/
def statsTuple (d : Dashboard) : Nat × Nat × Nat × Nat :=
  (d.statQueue, d.statProcessing, d.statCompleted, d.statFailed)

/-- The stat tiles produced from a carried `stats` block. -/
def renderedStatsOf (s : StatsFull) : Nat × Nat × Nat × Nat :=
  (s.queue_count, s.processing_count, s.completed_count, s.failed_count + s.killed_count)

theorem updateDashboard_statsTuple (d : Dashboard) (m : UpdateMsg) :
    statsTuple (updateDashboard d m) =
      match m.stats with
      | some s => renderedStatsOf s
      | none => statsTuple d := by
  cases hm : m.stats <;> simp [updateDashboard, hm, statsTuple, renderedStatsOf]

theorem statsFold_acc (ms : List UpdateMsg) :
    ∀ acc : Option StatsFull,
      List.foldl statsStep acc ms =
        match lastCarriedStats ms with
        | some s => some s
        | none => acc := by
  induction ms with
  | nil => intro acc; rfl
  | cons m rest ih =>
    intro acc
    rw [List.foldl_cons, ih]
    have h2 : lastCarriedStats (m :: rest) =
        match lastCarriedStats rest with
        | some s => some s
        | none => statsStep none m := by
      show List.foldl statsStep (statsStep none m) rest = _
      exact ih (statsStep none m)
    rw [h2]
    cases lastCarriedStats rest <;> cases hm : m.stats <;> simp [statsStep, hm]

theorem applyDeliveries_statsTuple (ms : List UpdateMsg) :
    ∀ d : Dashboard,
      statsTuple (applyDeliveries d ms) =
        match lastCarriedStats ms with
        | some s => renderedStatsOf s
        | none => statsTuple d := by
  induction ms with
  | nil => intro d; rfl
  | cons m rest ih =>
    intro d
    have h1 : applyDeliveries d (m :: rest) = applyDeliveries (updateDashboard d m) rest := rfl
    rw [h1, ih, updateDashboard_statsTuple]
    have h2 : lastCarriedStats (m :: rest) =
        match lastCarriedStats rest with
        | some s => some s
        | none => statsStep none m := by
      show List.foldl statsStep (statsStep none m) rest = _
      exact statsFold_acc rest (statsStep none m)
    rw [h2]
    cases lastCarriedStats rest <;> cases hm : m.stats <;> simp [statsStep, hm]

/-- An initial empty dashboard and the concrete deliveries of the C1
counterexample: one delivery carrying only `queue`, then one carrying only
`stats`. -/
def dash0 : Dashboard := ⟨0, 0, 0, 0, [], [], []⟩

/-- A concrete queued request record. -/
def rec1 : RequestRecord :=
  ⟨"r1", "ollama", "llama3", "hello", "queued", "2024-01-01T00:00:00"⟩

/-- A delivery carrying only the `queue` field. -/
def msgQueueOnly : UpdateMsg := ⟨some [rec1], none, none, none⟩

/-- A delivery carrying only the `stats` field. -/
def msgStatsOnly : UpdateMsg := ⟨none, none, none, some ⟨1, 2, 3, 4, 5⟩⟩

/-- C1: counterexample.  The claim says a field absent from a delivery leaves
that part of the snapshot unchanged, so after a delivery carrying
`queue = [rec1]` followed by one carrying only `stats`, the queue column should
still be `[rec1]`.  `updateDashboard` instead re-renders the columns from
`data.queue || []`, clearing the queue column to the empty list. -/
theorem c1_counterexample :
    msgStatsOnly.queue = none ∧
    msgQueueOnly.queue = some [rec1] ∧
    (updateDashboard (updateDashboard dash0 msgQueueOnly) msgStatsOnly).queueList ≠ [rec1] := by
  decide

/-- C1 (amended): per-field granularity holds only for the `stats` block —
after any non-empty sequence of deliveries the four stat tiles equal those of
the latest delivery that carried `stats` (or the initial tiles if none did) —
while the queue/processing/history columns are overwritten by every delivery
with the field it carries or the empty list when the field is absent, so they
equal the final delivery's fields with absent read as empty. -/
theorem c1_partial_delivery_semantics (d : Dashboard) (ms : List UpdateMsg) (mlast : UpdateMsg) :
    (applyDeliveries d (ms ++ [mlast])).queueList = mlast.queue.getD [] ∧
    (applyDeliveries d (ms ++ [mlast])).processingList = mlast.processing.getD [] ∧
    (applyDeliveries d (ms ++ [mlast])).historyList = mlast.history.getD [] ∧
    statsTuple (applyDeliveries d (ms ++ [mlast])) =
      (match lastCarriedStats (ms ++ [mlast]) with
       | some s => renderedStatsOf s
       | none => statsTuple d) := by
  have hsplit : applyDeliveries d (ms ++ [mlast]) =
      updateDashboard (applyDeliveries d ms) mlast := by
    show List.foldl updateDashboard d (ms ++ [mlast]) = _
    rw [List.foldl_append]
    rfl
  refine ⟨?_, ?_, ?_, applyDeliveries_statsTuple (ms ++ [mlast]) d⟩ <;> rw [hsplit] <;> rfl

/-! ## SessionManager and popup dashboard — popup script embedded in `src/install.sh` -/

/-- The central identity-service base URL hard-coded in the popup script. -/
def CENTRAL_API : String := "http://83.228.205.172:8081"

/-- `hashPassword` from the popup script: the SHA-256 platform primitive
(`crypto.subtle.digest`, abstracted as `sha`) applied to the fixed salt, the
lowercased username, a colon, and the password.  The plaintext password enters
only the digest input. -/
def hashPassword (sha : String → String) (password username : String) : String :=
  sha ("LLM_MONITOR_2024_" ++ username.toLower ++ ":" ++ password)

/-- The `llmMonitorConfig` object held in `this.config` and persisted via
`chrome.storage.local`; every field may be absent. -/
structure Config where
  centralToken : Option String
  centralRefresh : Option String
  username : Option String
  email : Option String
  rememberMe : Option Bool
  serverHost : Option String
deriving DecidableEq

/-- A `/api/services` entry as rendered by the popup (`renderServices`). -/
structure ServiceInfo where
  name : String
  port : Nat
  status : String
deriving DecidableEq

/-- The `/api/stats` body as read by the popup's `renderStats`; each counter
defaults to 0 (`x || 0`) when absent. -/
structure PopupStats where
  queue_count : Option Nat
  processing_count : Option Nat
  completed_count : Option Nat
  failed_count : Option Nat
  killed_count : Option Nat
deriving DecidableEq

/-- The four responses of one `refresh()` round (`/api/services`,
`/api/stats`, `/api/queue`, `/api/processing`). -/
structure RefreshData where
  services : List ServiceInfo
  stats : PopupStats
  queue : List RequestRecord
  processing : List RequestRecord
deriving DecidableEq

/-- The popup's rendered dashboard view: service cards, the four stat tiles,
and the two columns with their counters. -/
structure PopupRendered where
  services : List ServiceInfo
  statQueue : Nat
  statProcessing : Nat
  statCompleted : Nat
  statFailed : Nat
  queueCount : Nat
  queueShown : List RequestRecord
  processingCount : Nat
  processingShown : List RequestRecord
deriving DecidableEq

/-- Popup page state: in-memory `this.config`, the persisted
`chrome.storage.local` record, whether `this.refreshInterval` is installed,
how many `refresh()` rounds have issued their fetches but not yet completed,
and the rendered dashboard view. -/
structure PopupState where
  config : Option Config
  storage : Option Config
  refreshIntervalActive : Bool
  inFlight : Nat
  rendered : PopupRendered
deriving DecidableEq

/-- `renderServices`/`renderStats`/`renderQueue`/`renderProcessing` applied on
completion of one `refresh()` round: absent counters default to 0, the
`stat-failed` tile shows `failed_count + killed_count`, and the queue column
is capped to `queue.slice(0, 10)` while processing is rendered whole. -/
def applyRefresh (r : PopupRendered) (d : RefreshData) : PopupRendered :=
  { r with
    services := d.services
    statQueue := d.stats.queue_count.getD 0
    statProcessing := d.stats.processing_count.getD 0
    statCompleted := d.stats.completed_count.getD 0
    statFailed := d.stats.failed_count.getD 0 + d.stats.killed_count.getD 0
    queueCount := d.queue.length
    queueShown := d.queue.take 10
    processingCount := d.processing.length
    processingShown := d.processing }

/-- An event of the popup's single-threaded, cooperative event loop. -/
inductive PopupEvent where
  | timerFire
  | fetchReturn (d : RefreshData)
  | fetchFail
  | logoutEvent
deriving DecidableEq

/-- The synchronous prefix of `refresh()`: the guard
`if (!this.config || !this.config.serverHost) return;` runs before any fetch
is issued; passing it puts one round in flight. -/
def refreshStart (s : PopupState) : PopupState :=
  match s.config with
  | none => s
  | some c =>
    if jsTruthyStr c.serverHost then { s with inFlight := s.inFlight + 1 } else s

/-- `stopRefresh` from the popup script: clears the 2-second interval handle;
it cannot recall fetches already in flight. -/
def stopRefresh (s : PopupState) : PopupState :=
  { s with refreshIntervalActive := false }

/-- `logout` from the popup script: `stopRefresh()`, clear `this.config`,
remove the persisted record; the dashboard DOM is not re-rendered. -/
def logout (s : PopupState) : PopupState :=
  { stopRefresh s with config := none, storage := none }

/-- One step of the popup event loop.  A timer fire runs `refresh()`'s
synchronous prefix only while the interval is installed; completion of a round
in flight applies the four renders unconditionally, because the `refresh()`
continuation after `await Promise.all` re-checks neither the interval nor the
config; a failed round only logs the error. -/
def popupStep (s : PopupState) : PopupEvent → PopupState
  | .timerFire => if s.refreshIntervalActive then refreshStart s else s
  | .fetchReturn d =>
    if s.inFlight = 0 then s
    else { s with inFlight := s.inFlight - 1, rendered := applyRefresh s.rendered d }
  | .fetchFail =>
    if s.inFlight = 0 then s
    else { s with inFlight := s.inFlight - 1 }
  | .logoutEvent => logout s

/-- The identity record inside a successful auth response (`data.user`). -/
structure AuthUser where
  username : String
  email : Option String
deriving DecidableEq

/-- A parsed response of `POST /api/auth/login` or `/api/auth/register`:
HTTP success flag and the JSON fields the popup reads. -/
structure AuthResponse where
  ok : Bool
  access_token : Option String
  refresh_token : Option String
  user : Option AuthUser
  detail : Option String
deriving DecidableEq

/-- The JSON body of the one `fetch` issued by `handleLogin`:
`{ username, password_hash, remember_me }` — there is no plaintext-password
field. -/
structure LoginRequest where
  url : String
  username : String
  password_hash : String
  remember_me : Bool
deriving DecidableEq

/-- Observable outcome of one `handleLogin` call: the requests it issued, the
resulting page state, and the error banner if any. -/
structure LoginResult where
  requests : List LoginRequest
  state : PopupState
  errorShown : Option String
deriving DecidableEq

/-- `LLMMonitor.handleLogin`: trims the username, digests the password with
`hashPassword`, issues exactly one POST whose body carries the digest, and on
a successful response replaces `this.config` with the five-field record built
from the response and persists it (`saveConfig`).  A missing `user` object on
a 200 would throw at `data.user.username` and land in the catch block; a
non-ok response shows `data.detail` or the fallback message. -/
def handleLogin (sha : String → String) (st : PopupState)
    (usernameInput password : String) (rememberMe : Bool) (resp : AuthResponse) :
    LoginResult :=
  let username := usernameInput.trim
  let passwordHash := hashPassword sha password username
  let req : LoginRequest :=
    ⟨CENTRAL_API ++ "/api/auth/login", username, passwordHash, rememberMe⟩
  if resp.ok then
    match resp.user with
    | some user =>
      let cfg : Config :=
        { centralToken := resp.access_token
          centralRefresh := resp.refresh_token
          username := some user.username
          email := user.email
          rememberMe := some rememberMe
          serverHost := none }
      { requests := [req]
        state := { st with config := some cfg, storage := some cfg }
        errorShown := none }
    | none => { requests := [req], state := st, errorShown := some "TypeError" }
  else
    { requests := [req], state := st
      errorShown := some (resp.detail.getD "Echec de connexion") }

/-- A concrete fully-connected popup config. -/
def cfgConnected : Config :=
  { centralToken := some "tok"
    centralRefresh := some "reftok"
    username := some "alice"
    email := some "alice@example.com"
    rememberMe := some true
    serverHost := some "http://10.0.0.5:8080" }

/-- An empty rendered popup dashboard. -/
def rendered0 : PopupRendered := ⟨[], 0, 0, 0, 0, 0, [], 0, []⟩

/-- A connected popup state with one `refresh()` round in flight. -/
def popupS0 : PopupState :=
  { config := some cfgConnected
    storage := some cfgConnected
    refreshIntervalActive := true
    inFlight := 1
    rendered := rendered0 }

/-- A connected popup state with no fetch in flight. -/
def popupS1 : PopupState :=
  { config := some cfgConnected
    storage := some cfgConnected
    refreshIntervalActive := true
    inFlight := 0
    rendered := rendered0 }

/-- A non-trivial refresh payload (stats tile 7). -/
def refreshD1 : RefreshData :=
  ⟨[], ⟨some 7, none, none, none, none⟩, [], []⟩

/-- C3: counterexample.  With one `refresh()` round in flight, `logout()`
clears the interval and the config, yet the round's response arriving
afterwards still runs the render continuation and mutates the rendered
snapshot — the claim says any fetch completing after stop is discarded. -/
theorem c3_counterexample :
    popupS0.inFlight = 1 ∧
    (popupStep popupS0 .logoutEvent).config = none ∧
    (popupStep (popupStep popupS0 .logoutEvent) (.fetchReturn refreshD1)).rendered ≠
      (popupStep popupS0 .logoutEvent).rendered := by
  decide

/-- C3 (amended): after `logout()` the interval is cleared and the config is
nulled, so a timer fire is a no-op (no new fetch starts, nothing is rendered),
and if no fetch was in flight at stop time then no subsequent event of any
kind mutates the rendered snapshot; but the response of a fetch already in
flight when stop was called is still applied (the in-flight counterexample). -/
theorem c3_stop_discards_future_events (s : PopupState) :
    popupStep (popupStep s .logoutEvent) .timerFire = popupStep s .logoutEvent ∧
    (popupStep s .logoutEvent).config = none ∧
    (popupStep s .logoutEvent).refreshIntervalActive = false ∧
    (s.inFlight = 0 → ∀ ev : PopupEvent,
      (popupStep (popupStep s .logoutEvent) ev).rendered =
        (popupStep s .logoutEvent).rendered) := by
  refine ⟨?_, rfl, rfl, ?_⟩
  · simp [popupStep, logout, stopRefresh]
  · intro h0 ev
    cases ev with
    | timerFire => simp [popupStep, logout, stopRefresh]
    | fetchReturn d => simp [popupStep, logout, stopRefresh, h0]
    | fetchFail => simp [popupStep, logout, stopRefresh, h0]
    | logoutEvent => rfl

/-- Witness for C3 (amended) at the zero-in-flight connected state. -/
theorem c3_stop_discards_future_events_witness :
    popupS1.inFlight = 0 ∧
    (popupStep (popupStep popupS1 .logoutEvent) .timerFire = popupStep popupS1 .logoutEvent ∧
     (popupStep popupS1 .logoutEvent).config = none ∧
     (popupStep popupS1 .logoutEvent).refreshIntervalActive = false ∧
     (popupS1.inFlight = 0 → ∀ ev : PopupEvent,
       (popupStep (popupStep popupS1 .logoutEvent) ev).rendered =
         (popupStep popupS1 .logoutEvent).rendered)) :=
  ⟨rfl, c3_stop_discards_future_events popupS1⟩

/-- C4: `handleLogin` issues exactly one POST to `/api/auth/login`, whose body
is the record `{username, password_hash, remember_me}` — the `password_hash`
field is the salted, lowercased-username-bound SHA-256 digest, and the body
has no plaintext-password field, so the request depends on the password only
through the digest (second conjunct); and on an ok response carrying a `user`
object, the new session's username is the response's username, its token is
the response's `access_token`, and the persisted store equals the in-memory
config (`saveConfig`). -/
theorem c4_login_digest_once_and_session (sha : String → String) (st : PopupState)
    (usernameInput password : String) (rememberMe : Bool) (resp : AuthResponse) :
    (handleLogin sha st usernameInput password rememberMe resp).requests =
      [⟨CENTRAL_API ++ "/api/auth/login", usernameInput.trim,
        sha ("LLM_MONITOR_2024_" ++ usernameInput.trim.toLower ++ ":" ++ password),
        rememberMe⟩] ∧
    (∀ p1 p2 : String,
      sha ("LLM_MONITOR_2024_" ++ usernameInput.trim.toLower ++ ":" ++ p1) =
        sha ("LLM_MONITOR_2024_" ++ usernameInput.trim.toLower ++ ":" ++ p2) →
      (handleLogin sha st usernameInput p1 rememberMe resp).requests =
        (handleLogin sha st usernameInput p2 rememberMe resp).requests) ∧
    (resp.ok = true → ∀ usr : AuthUser, resp.user = some usr →
      ((handleLogin sha st usernameInput password rememberMe resp).state.config.map
          (fun c => c.username) = some (some usr.username) ∧
       (handleLogin sha st usernameInput password rememberMe resp).state.config.map
          (fun c => c.centralToken) = some resp.access_token ∧
       (handleLogin sha st usernameInput password rememberMe resp).state.storage =
         (handleLogin sha st usernameInput password rememberMe resp).state.config)) := by
  refine ⟨?_, ?_, ?_⟩
  · simp only [handleLogin, hashPassword]
    split
    · cases resp.user <;> rfl
    · rfl
  · intro p1 p2 h12
    simp only [handleLogin, hashPassword, h12]
  · intro hok usr huser
    simp [handleLogin, hok, huser]

/-- Witness for C4 at the spec scenario: user `"alice"`, password
`"Abcd1234"`, a 200 response carrying `access_token = "t1"` and
`user.username = "alice"`; the digest primitive is instantiated with a
concrete function so the conclusion evaluates. -/
theorem c4_login_digest_once_and_session_witness :
    (AuthResponse.mk true (some "t1") none (some ⟨"alice", none⟩) none).ok = true ∧
    (AuthResponse.mk true (some "t1") none (some ⟨"alice", none⟩) none).user =
      some ⟨"alice", none⟩ ∧
    ((handleLogin (fun s => s) popupS1 "alice" "Abcd1234" true
        (AuthResponse.mk true (some "t1") none (some ⟨"alice", none⟩) none)).requests =
      [⟨CENTRAL_API ++ "/api/auth/login", ("alice" : String).trim,
        (fun s => s) ("LLM_MONITOR_2024_" ++ ("alice" : String).trim.toLower ++ ":" ++ "Abcd1234"),
        true⟩] ∧
     (∀ p1 p2 : String,
       (fun s => s) ("LLM_MONITOR_2024_" ++ ("alice" : String).trim.toLower ++ ":" ++ p1) =
         (fun s => s) ("LLM_MONITOR_2024_" ++ ("alice" : String).trim.toLower ++ ":" ++ p2) →
       (handleLogin (fun s => s) popupS1 "alice" p1 true
          (AuthResponse.mk true (some "t1") none (some ⟨"alice", none⟩) none)).requests =
         (handleLogin (fun s => s) popupS1 "alice" p2 true
            (AuthResponse.mk true (some "t1") none (some ⟨"alice", none⟩) none)).requests) ∧
     ((AuthResponse.mk true (some "t1") none (some ⟨"alice", none⟩) none).ok = true →
       ∀ usr : AuthUser,
         (AuthResponse.mk true (some "t1") none (some ⟨"alice", none⟩) none).user = some usr →
         ((handleLogin (fun s => s) popupS1 "alice" "Abcd1234" true
             (AuthResponse.mk true (some "t1") none (some ⟨"alice", none⟩) none)).state.config.map
             (fun c => c.username) = some (some usr.username) ∧
          (handleLogin (fun s => s) popupS1 "alice" "Abcd1234" true
             (AuthResponse.mk true (some "t1") none (some ⟨"alice", none⟩) none)).state.config.map
             (fun c => c.centralToken) =
            some (AuthResponse.mk true (some "t1") none (some ⟨"alice", none⟩) none).access_token ∧
          (handleLogin (fun s => s) popupS1 "alice" "Abcd1234" true
             (AuthResponse.mk true (some "t1") none (some ⟨"alice", none⟩) none)).state.storage =
            (handleLogin (fun s => s) popupS1 "alice" "Abcd1234" true
               (AuthResponse.mk true (some "t1") none (some ⟨"alice", none⟩) none)).state.config))) :=
  ⟨rfl, rfl,
    c4_login_digest_once_and_session (fun s => s) popupS1 "alice" "Abcd1234" true
      (AuthResponse.mk true (some "t1") none (some ⟨"alice", none⟩) none)⟩

/-- Outcome of the `GET /api/auth/me` credential check inside
`validateCentralToken`: HTTP success, an HTTP rejection (`response.ok` false),
or a throw (network unreachable, or the 5-second `AbortSignal.timeout`
firing); both throw causes land in the same `catch`. -/
inductive MeOutcome where
  | ok
  | rejected
  | thrown
deriving DecidableEq

/-- The token pair of a parsed `/api/auth/refresh` body; either field may be
absent from the JSON. -/
structure TokenPair where
  access_token : Option String
  refresh_token : Option String
deriving DecidableEq

/-- Outcome of the `POST /api/auth/refresh` call inside `refreshCentralToken`:
a parsed body, an HTTP rejection, a network throw, or a `response.json()`
parse failure (malformed body). -/
inductive RefreshOutcome where
  | ok (tokens : TokenPair)
  | rejected
  | netThrow
  | jsonThrow
deriving DecidableEq

/-- The request descriptor of the credential check issued by
`validateCentralToken`: bearer header and `AbortSignal.timeout(5000)`. -/
structure MeRequest where
  url : String
  bearer : String
  timeoutMs : Nat
deriving DecidableEq

/-- Observable outcome of one `validateCentralToken` call: the returned
boolean, the resulting page state, the credential-check requests issued, and
how many times `refreshCentralToken` was invoked. -/
structure ValidateResult where
  ret : Bool
  state : PopupState
  meRequests : List MeRequest
  refreshAttempts : Nat
deriving DecidableEq

/-- `LLMMonitor.refreshCentralToken`: a non-ok response returns false before
any mutation; a throw (network, or `json()` on a malformed body) is caught and
returns false — in both cases before `this.config` is touched.  Only a parsed
body mutates the config's token pair and persists it.  (A null `this.config`
would throw at the `centralRefresh` access and be caught.) -/
def refreshCentralToken (st : PopupState) (outcome : RefreshOutcome) :
    Bool × PopupState :=
  match st.config with
  | none => (false, st)
  | some c =>
    match outcome with
    | .ok tokens =>
      let c1 := { c with centralToken := tokens.access_token
                         centralRefresh := tokens.refresh_token }
      (true, { st with config := some c1, storage := some c1 })
    | _ => (false, st)

/-- `LLMMonitor.validateCentralToken`: returns false at once without any
request when `this.config` or its `centralToken` is falsy; otherwise issues
the one credential check with a 5000 ms timeout.  An ok response returns true;
a throw is caught and returns false with no refresh; a rejection triggers
exactly one `refreshCentralToken` call when `centralRefresh` is truthy, and
returns false otherwise. -/
def validateCentralToken (st : PopupState) (me : MeOutcome) (ro : RefreshOutcome) :
    ValidateResult :=
  match st.config with
  | none => ⟨false, st, [], 0⟩
  | some c =>
    if jsTruthyStr c.centralToken = false then ⟨false, st, [], 0⟩
    else
      let req : MeRequest :=
        ⟨CENTRAL_API ++ "/api/auth/me", "Bearer " ++ c.centralToken.getD "", 5000⟩
      match me with
      | .thrown => ⟨false, st, [req], 0⟩
      | .ok => ⟨true, st, [req], 0⟩
      | .rejected =>
        if jsTruthyStr c.centralRefresh then
          let r := refreshCentralToken st ro
          ⟨r.1, r.2, [req], 1⟩
        else ⟨false, st, [req], 0⟩

/-- The JSON body of the one `fetch` issued by `handleRegister`:
`{ username, email, password_hash }`, no plaintext-password field. -/
structure RegisterRequest where
  url : String
  username : String
  email : String
  password_hash : String
deriving DecidableEq

/-- Observable outcome of one `handleRegister` call. -/
structure RegisterResult where
  requests : List RegisterRequest
  state : PopupState
  errorShown : Option String
deriving DecidableEq

/-- The JS regex test `/[A-Z]/.test(password)`. -/
def hasUppercaseChar (s : String) : Bool :=
  s.any (fun c => decide ('A' ≤ c ∧ c ≤ 'Z'))

/-- The JS regex test `/[0-9]/.test(password)`. -/
def hasDigitChar (s : String) : Bool :=
  s.any (fun c => decide ('0' ≤ c ∧ c ≤ '9'))

/-- `LLMMonitor.handleRegister`: the three local validations run in order —
password/confirmation equality, minimum length 8, presence of an uppercase
letter and a digit — each violation short-circuiting with its message before
any network call; only when all pass is the one registration POST issued with
the digested password. -/
def handleRegister (sha : String → String) (st : PopupState)
    (usernameInput emailInput password password2 : String) (resp : AuthResponse) :
    RegisterResult :=
  let username := usernameInput.trim
  let email := emailInput.trim
  if password ≠ password2 then
    ⟨[], st, some "Les mots de passe ne correspondent pas"⟩
  else if password.length < 8 then
    ⟨[], st, some "Mot de passe: minimum 8 caracteres"⟩
  else if !hasUppercaseChar password || !hasDigitChar password then
    ⟨[], st, some "Mot de passe: 1 majuscule et 1 chiffre requis"⟩
  else
    let req : RegisterRequest :=
      ⟨CENTRAL_API ++ "/api/auth/register", username, email,
        hashPassword sha password username⟩
    if resp.ok then
      match resp.user with
      | some user =>
        let cfg : Config :=
          { centralToken := resp.access_token
            centralRefresh := resp.refresh_token
            username := some user.username
            email := user.email
            rememberMe := none
            serverHost := none }
        ⟨[req], { st with config := some cfg, storage := some cfg }, none⟩
      | none => ⟨[req], st, some "TypeError"⟩
    else ⟨[req], st, some (resp.detail.getD "Echec inscription")⟩

/-- C5: on a rejected credential check, `validateCentralToken` makes exactly
one refresh attempt when a refresh credential exists and zero when none does —
never more than one per call (also quantified over every check outcome) — and
the credential check itself is issued with the bounded 5000 ms timeout. -/
theorem c5_rejected_validate_refreshes_once (st : PopupState) (c : Config)
    (h1 : st.config = some c) (h2 : jsTruthyStr c.centralToken = true)
    (ro : RefreshOutcome) :
    (jsTruthyStr c.centralRefresh = true →
      (validateCentralToken st .rejected ro).refreshAttempts = 1) ∧
    (jsTruthyStr c.centralRefresh = false →
      (validateCentralToken st .rejected ro).refreshAttempts = 0 ∧
      (validateCentralToken st .rejected ro).ret = false) ∧
    (∀ me : MeOutcome, (validateCentralToken st me ro).refreshAttempts ≤ 1) ∧
    (validateCentralToken st .rejected ro).meRequests =
      [⟨CENTRAL_API ++ "/api/auth/me", "Bearer " ++ c.centralToken.getD "", 5000⟩] := by
  refine ⟨?_, ?_, ?_, ?_⟩
  · intro hr
    simp [validateCentralToken, h1, h2, hr]
  · intro hr
    simp [validateCentralToken, h1, h2, hr]
  · intro me
    cases me <;> (simp [validateCentralToken, h1, h2]; try (split <;> simp))
  · simp only [validateCentralToken, h1]
    rw [if_neg (by simp [h2])]
    split <;> rfl

/-- Witness for C5 at the connected state (refresh credential present),
with the refresh attempt itself rejected. -/
theorem c5_rejected_validate_refreshes_once_witness :
    popupS1.config = some cfgConnected ∧
    jsTruthyStr cfgConnected.centralToken = true ∧
    ((jsTruthyStr cfgConnected.centralRefresh = true →
       (validateCentralToken popupS1 .rejected .rejected).refreshAttempts = 1) ∧
     (jsTruthyStr cfgConnected.centralRefresh = false →
       (validateCentralToken popupS1 .rejected .rejected).refreshAttempts = 0 ∧
       (validateCentralToken popupS1 .rejected .rejected).ret = false) ∧
     (∀ me : MeOutcome,
       (validateCentralToken popupS1 me .rejected).refreshAttempts ≤ 1) ∧
     (validateCentralToken popupS1 .rejected .rejected).meRequests =
       [⟨CENTRAL_API ++ "/api/auth/me",
         "Bearer " ++ cfgConnected.centralToken.getD "", 5000⟩]) :=
  ⟨rfl, by decide,
    c5_rejected_validate_refreshes_once popupS1 cfgConnected rfl (by decide) .rejected⟩

/-- C6: every failing `refreshCentralToken` call — HTTP rejection, network
throw, or malformed body — returns false and leaves the whole state (held
config and persisted store included) exactly as before the call. -/
theorem c6_refresh_failure_leaves_state (st : PopupState) (ro : RefreshOutcome)
    (hfail : ro = .rejected ∨ ro = .netThrow ∨ ro = .jsonThrow) :
    refreshCentralToken st ro = (false, st) := by
  obtain ⟨cfg, stor, ria, inflight, rend⟩ := st
  cases cfg with
  | none => rcases hfail with rfl | rfl | rfl <;> rfl
  | some c => rcases hfail with rfl | rfl | rfl <;> rfl

/-- Witness for C6 at the connected state with a network throw. -/
theorem c6_refresh_failure_leaves_state_witness :
    (RefreshOutcome.netThrow = .rejected ∨ RefreshOutcome.netThrow = .netThrow ∨
      RefreshOutcome.netThrow = .jsonThrow) ∧
    refreshCentralToken popupS1 .netThrow = (false, popupS1) :=
  ⟨Or.inr (Or.inl rfl),
    c6_refresh_failure_leaves_state popupS1 .netThrow (Or.inr (Or.inl rfl))⟩

/-- C7: any local-validation violation in `handleRegister` — mismatching
confirmation, length below 8, or a password lacking an uppercase letter or a
digit — short-circuits with the message of the first violated rule, issues no
network request, and leaves the state untouched; in particular `"short"`
(matching confirmation) yields the minimum-length message. -/
theorem c7_register_validation_short_circuits (sha : String → String)
    (st : PopupState) (u e p p2 : String) (resp : AuthResponse)
    (h : p ≠ p2 ∨ p.length < 8 ∨ hasUppercaseChar p = false ∨ hasDigitChar p = false) :
    (handleRegister sha st u e p p2 resp).requests = [] ∧
    (handleRegister sha st u e p p2 resp).state = st ∧
    (p ≠ p2 → (handleRegister sha st u e p p2 resp).errorShown =
      some "Les mots de passe ne correspondent pas") ∧
    (p = p2 → p.length < 8 → (handleRegister sha st u e p p2 resp).errorShown =
      some "Mot de passe: minimum 8 caracteres") ∧
    (p = p2 → ¬ p.length < 8 → (handleRegister sha st u e p p2 resp).errorShown =
      some "Mot de passe: 1 majuscule et 1 chiffre requis") := by
  by_cases hpp : p = p2
  · subst hpp
    by_cases hlen : p.length < 8
    · have hred : handleRegister sha st u e p p resp =
          ⟨[], st, some "Mot de passe: minimum 8 caracteres"⟩ := by
        simp only [handleRegister]
        rw [if_neg (fun hne => hne rfl), if_pos hlen]
      refine ⟨?_, ?_, ?_, ?_, ?_⟩
      · rw [hred]
      · rw [hred]
      · intro hne; exact absurd rfl hne
      · intro _ _; rw [hred]
      · intro _ hnl; exact absurd hlen hnl
    · have hcond : (!hasUppercaseChar p || !hasDigitChar p) = true := by
        rcases h with hne | hl | hu | hd
        · exact absurd rfl hne
        · exact absurd hl hlen
        · simp [hu]
        · simp [hd]
      have hred : handleRegister sha st u e p p resp =
          ⟨[], st, some "Mot de passe: 1 majuscule et 1 chiffre requis"⟩ := by
        simp only [handleRegister]
        rw [if_neg (fun hne => hne rfl), if_neg hlen, if_pos hcond]
      refine ⟨?_, ?_, ?_, ?_, ?_⟩
      · rw [hred]
      · rw [hred]
      · intro hne; exact absurd rfl hne
      · intro _ hl; exact absurd hl hlen
      · intro _ _; rw [hred]
  · have hred : handleRegister sha st u e p p2 resp =
        ⟨[], st, some "Les mots de passe ne correspondent pas"⟩ := by
      simp only [handleRegister]
      rw [if_pos hpp]
    refine ⟨?_, ?_, ?_, ?_, ?_⟩
    · rw [hred]
    · rw [hred]
    · intro _; rw [hred]
    · intro heq; exact absurd heq hpp
    · intro heq; exact absurd heq hpp

/-- Witness for C7 at the spec scenario: password `"short"` with matching
confirmation hits the minimum-length rule and issues no network call. -/
theorem c7_register_validation_short_circuits_witness :
    (("short" : String) ≠ "short" ∨ ("short" : String).length < 8 ∨
      hasUppercaseChar "short" = false ∨ hasDigitChar "short" = false) ∧
    ((handleRegister (fun s => s) popupS1 "bob" "bob@example.com" "short" "short"
        (AuthResponse.mk true none none none none)).requests = [] ∧
     (handleRegister (fun s => s) popupS1 "bob" "bob@example.com" "short" "short"
        (AuthResponse.mk true none none none none)).state = popupS1 ∧
     (("short" : String) ≠ "short" →
       (handleRegister (fun s => s) popupS1 "bob" "bob@example.com" "short" "short"
          (AuthResponse.mk true none none none none)).errorShown =
         some "Les mots de passe ne correspondent pas") ∧
     (("short" : String) = "short" → ("short" : String).length < 8 →
       (handleRegister (fun s => s) popupS1 "bob" "bob@example.com" "short" "short"
          (AuthResponse.mk true none none none none)).errorShown =
         some "Mot de passe: minimum 8 caracteres") ∧
     (("short" : String) = "short" → ¬ ("short" : String).length < 8 →
       (handleRegister (fun s => s) popupS1 "bob" "bob@example.com" "short" "short"
          (AuthResponse.mk true none none none none)).errorShown =
         some "Mot de passe: 1 majuscule et 1 chiffre requis")) :=
  ⟨Or.inr (Or.inl (by decide)),
    c7_register_validation_short_circuits (fun s => s) popupS1 "bob" "bob@example.com"
      "short" "short" (AuthResponse.mk true none none none none)
      (Or.inr (Or.inl (by decide)))⟩

/-- C10: when the credential check itself throws (network unreachable or the
5-second timeout), `validateCentralToken` returns false, makes no refresh
attempt, and leaves the state — including the stored session configuration —
unchanged. -/
theorem c10_validate_throw_returns_false (st : PopupState) (ro : RefreshOutcome) :
    (validateCentralToken st .thrown ro).ret = false ∧
    (validateCentralToken st .thrown ro).state = st ∧
    (validateCentralToken st .thrown ro).refreshAttempts = 0 := by
  obtain ⟨cfg, stor, ria, inflight, rend⟩ := st
  cases cfg with
  | none => exact ⟨rfl, rfl, rfl⟩
  | some c =>
    simp only [validateCentralToken]
    split
    · exact ⟨rfl, rfl, rfl⟩
    · exact ⟨rfl, rfl, rfl⟩
